import Mathlib

/-!
Verification of the note-capture backend core (router + thought store)
against its specification.  The Python source (`src/main.py`, `src/schemas.py`)
is shallowly embedded: strings are lists of characters, the optional
parameters of `smart_route_folder` are `Option`s, and the abstract document
store consumed by `ingest_thought` / `list_thoughts` is explicit state.
-/

/-- ASCII lowercasing of one character, the per-character behaviour of
Python's `str.lower` on the ASCII range used by the router's keywords. -/
def lowerChar (c : Char) : Char :=
  if 65 ≤ c.toNat ∧ c.toNat ≤ 90 then Char.ofNat (c.toNat + 32) else c

/-- Lowercase a whole string (`text.lower()` in the source). -/
def lowerStr (s : List Char) : List Char :=
  s.map lowerChar

/-- Substring containment: Python's `t in text_l` on strings. -/
def isSubstr : List Char → List Char → Bool
  | needle, [] => needle.isEmpty
  | needle, c :: rest => needle.isPrefixOf (c :: rest) || isSubstr needle rest

/-- Keywords of the `tasks` rule (src/main.py line 40). -/
def tasksKeywords : List (List Char) :=
  ["todo".data, "task".data, "next".data, "due".data, "deadline".data]

/-- Keywords of the `ideas` rule (src/main.py line 42). -/
def ideasKeywords : List (List Char) :=
  ["idea".data, "concept".data, "brainstorm".data, "inspiration".data]

/-- Keywords of the `notes` rule (src/main.py line 44). -/
def notesKeywords : List (List Char) :=
  ["meeting".data, "call".data, "note".data, "summary".data]

/-- Keywords of the `reads` rule (src/main.py line 46). -/
def readsKeywords : List (List Char) :=
  ["article".data, "read".data, "bookmark".data, "link".data]

/-- Condition of the `tasks` rule on the lowercased content and tag set. -/
def matchesTasks (text_l : List Char) (tagset : List (List Char)) : Bool :=
  tasksKeywords.any (fun t => isSubstr t text_l) || decide ("task".data ∈ tagset)

/-- Condition of the `ideas` rule. -/
def matchesIdeas (text_l : List Char) (tagset : List (List Char)) : Bool :=
  ideasKeywords.any (fun t => isSubstr t text_l) || decide ("idea".data ∈ tagset)

/-- Condition of the `notes` rule. -/
def matchesNotes (text_l : List Char) (tagset : List (List Char)) : Bool :=
  notesKeywords.any (fun t => isSubstr t text_l) || decide ("notes".data ∈ tagset)

/-- Condition of the `reads` rule. -/
def matchesReads (text_l : List Char) (tagset : List (List Char)) : Bool :=
  readsKeywords.any (fun t => isSubstr t text_l) || decide ("read".data ∈ tagset)

/-- The priority cascade of `smart_route_folder` after normalization. -/
def routeCore (text_l : List Char) (tagset : List (List Char)) : List Char :=
  if matchesTasks text_l tagset then "tasks".data
  else if matchesIdeas text_l tagset then "ideas".data
  else if matchesNotes text_l tagset then "notes".data
  else if matchesReads text_l tagset then "reads".data
  else "inbox".data

/-- `smart_route_folder` from src/main.py lines 32-48: normalize the optional
content to a lowercase string and the optional tag list to a set of lowercase
tags, then run the first-match-wins rule cascade. -/
def smart_route_folder (text : Option (List Char)) (tags : Option (List (List Char))) :
    List Char :=
  routeCore (lowerStr (text.getD [])) ((tags.getD []).map lowerStr)

/-- The keys of the fixed folder registry. -/
def folderKeys : List (List Char) :=
  ["inbox".data, "reads".data, "notes".data, "ideas".data, "tasks".data]

-- Helper lemmas about the router

theorem isPrefixOf_iff (a b : List Char) : a.isPrefixOf b = true ↔ ∃ t, b = a ++ t := by
  induction a generalizing b with
  | nil => simp [List.isPrefixOf]
  | cons x xs ih =>
    cases b with
    | nil => simp [List.isPrefixOf]
    | cons y ys =>
      simp only [List.isPrefixOf, Bool.and_eq_true, beq_iff_eq, ih, List.cons_append,
        List.cons.injEq]
      constructor
      · rintro ⟨hxy, t, ht⟩
        exact ⟨t, hxy.symm, ht⟩
      · rintro ⟨t, hyx, ht⟩
        exact ⟨hyx.symm, t, ht⟩

theorem isSubstr_iff (needle hay : List Char) :
    isSubstr needle hay = true ↔ ∃ s t, hay = s ++ needle ++ t := by
  induction hay with
  | nil =>
    simp only [isSubstr, List.isEmpty_iff]
    constructor
    · rintro rfl
      exact ⟨[], [], rfl⟩
    · rintro ⟨s, t, ht⟩
      rcases (List.append_eq_nil.mp (List.append_eq_nil.mp ht.symm).1).2 with h
      exact h
  | cons c cs ih =>
    simp only [isSubstr, Bool.or_eq_true, isPrefixOf_iff, ih]
    constructor
    · rintro (⟨t, ht⟩ | ⟨s, t, ht⟩)
      · exact ⟨[], t, by simp [ht]⟩
      · exact ⟨c :: s, t, by simp [ht]⟩
    · rintro ⟨s, t, ht⟩
      cases s with
      | nil =>
        left
        exact ⟨t, by simpa using ht⟩
      | cons d ds =>
        right
        rcases List.cons.injEq .. ▸ ht with ⟨-, h2⟩
        simp only [List.cons_append, List.cons.injEq] at ht
        exact ⟨ds, t, ht.2⟩

theorem isSubstr_trans (a b c : List Char) (hab : isSubstr a b = true)
    (hbc : isSubstr b c = true) : isSubstr a c = true := by
  rcases (isSubstr_iff b c).mp hbc with ⟨u, v, rfl⟩
  rcases (isSubstr_iff a b).mp hab with ⟨s, t, rfl⟩
  exact (isSubstr_iff a _).mpr ⟨u ++ s, t ++ v, by simp⟩

theorem lowerChar_idem (c : Char) : lowerChar (lowerChar c) = lowerChar c := by
  have aux : ∀ m : Nat, 97 ≤ m → m ≤ 122 → lowerChar (Char.ofNat m) = Char.ofNat m := by
    intro m h1 h2
    interval_cases m <;> decide
  unfold lowerChar
  by_cases h : 65 ≤ c.toNat ∧ c.toNat ≤ 90
  · simp only [h, if_true]
    have := aux (c.toNat + 32) (by omega) (by omega)
    simpa [lowerChar] using this
  · simp [h]

theorem lowerStr_idem (s : List Char) : lowerStr (lowerStr s) = lowerStr s := by
  unfold lowerStr
  rw [List.map_map]
  exact List.map_congr_left fun c _ => lowerChar_idem c

theorem routeCore_mem (text_l : List Char) (tagset : List (List Char)) :
    routeCore text_l tagset ∈ folderKeys := by
  unfold routeCore
  split_ifs <;> simp [folderKeys]

theorem routeCore_ne_nil (text_l : List Char) (tagset : List (List Char)) :
    routeCore text_l tagset ≠ [] := by
  unfold routeCore
  split_ifs <;> simp

theorem smart_route_folder_ne_nil (text : Option (List Char))
    (tags : Option (List (List Char))) : smart_route_folder text tags ≠ [] :=
  routeCore_ne_nil _ _

-- C1 .. C4

/-- C1: `smart_route_folder` is total — for every combination of present/absent
content and tags it returns a key of the fixed folder registry
{inbox, reads, notes, ideas, tasks}, and with both absent it returns "inbox". -/
theorem C1_router_total (text : Option (List Char)) (tags : Option (List (List Char))) :
    smart_route_folder text tags ∈ folderKeys ∧
      smart_route_folder none none = "inbox".data :=
  ⟨routeCore_mem _ _, by decide⟩

/-- C2: the rules are evaluated in the fixed order tasks, ideas, notes, reads;
content matching both a tasks keyword and an ideas keyword routes to "tasks",
and the two concrete examples from the spec behave as stated. -/
theorem C2_priority_order (text : List Char) (tags : Option (List (List Char)))
    (h1 : ∃ k ∈ tasksKeywords, isSubstr k (lowerStr text) = true)
    (h2 : ∃ k ∈ ideasKeywords, isSubstr k (lowerStr text) = true) :
    smart_route_folder (some text) tags = "tasks".data ∧
      smart_route_folder (some "todo: brainstorm ideas".data) (some []) = "tasks".data ∧
      smart_route_folder (some "just a brainstorm of ideas".data) (some []) = "ideas".data := by
  refine ⟨?_, by decide, by decide⟩
  have hm : matchesTasks (lowerStr text) ((tags.getD []).map lowerStr) = true := by
    unfold matchesTasks
    exact Bool.or_eq_true _ _ |>.mpr (Or.inl (List.any_eq_true.mpr h1))
  unfold smart_route_folder routeCore
  simp [hm]

/-- Witness for C2 at content "todo idea". -/
theorem C2_priority_order_witness :
    smart_route_folder (some "todo idea".data) (some []) = "tasks".data :=
  (C2_priority_order "todo idea".data (some [])
    ⟨"todo".data, by decide, by decide⟩ ⟨"idea".data, by decide, by decide⟩).1

/-- C3: keyword matching is case-insensitive substring containment — content
whose lowercase form contains "deadlines" routes to "tasks" via the keyword
"deadline"; any rule keyword occurring as a substring of the lowercased
content fires that rule's condition; and a content string routes to the same
folder as its lowercase form. -/
theorem C3_substring_matching (text : List Char) (tags : Option (List (List Char))) :
    (isSubstr "deadlines".data (lowerStr text) = true →
      smart_route_folder (some text) tags = "tasks".data) ∧
    (∀ k ∈ tasksKeywords, isSubstr k (lowerStr text) = true →
      matchesTasks (lowerStr text) ((tags.getD []).map lowerStr) = true) ∧
    (∀ k ∈ ideasKeywords, isSubstr k (lowerStr text) = true →
      matchesIdeas (lowerStr text) ((tags.getD []).map lowerStr) = true) ∧
    (∀ k ∈ notesKeywords, isSubstr k (lowerStr text) = true →
      matchesNotes (lowerStr text) ((tags.getD []).map lowerStr) = true) ∧
    (∀ k ∈ readsKeywords, isSubstr k (lowerStr text) = true →
      matchesReads (lowerStr text) ((tags.getD []).map lowerStr) = true) ∧
    smart_route_folder (some (lowerStr text)) tags = smart_route_folder (some text) tags := by
  refine ⟨?_, ?_, ?_, ?_, ?_, ?_⟩
  · intro h
    have hd : isSubstr "deadline".data (lowerStr text) = true :=
      isSubstr_trans _ _ _ (by decide) h
    have hm : matchesTasks (lowerStr text) ((tags.getD []).map lowerStr) = true := by
      unfold matchesTasks
      exact Bool.or_eq_true _ _ |>.mpr
        (Or.inl (List.any_eq_true.mpr ⟨"deadline".data, by decide, hd⟩))
    unfold smart_route_folder routeCore
    simp [hm]
  · intro k hk h
    unfold matchesTasks
    exact Bool.or_eq_true _ _ |>.mpr (Or.inl (List.any_eq_true.mpr ⟨k, hk, h⟩))
  · intro k hk h
    unfold matchesIdeas
    exact Bool.or_eq_true _ _ |>.mpr (Or.inl (List.any_eq_true.mpr ⟨k, hk, h⟩))
  · intro k hk h
    unfold matchesNotes
    exact Bool.or_eq_true _ _ |>.mpr (Or.inl (List.any_eq_true.mpr ⟨k, hk, h⟩))
  · intro k hk h
    unfold matchesReads
    exact Bool.or_eq_true _ _ |>.mpr (Or.inl (List.any_eq_true.mpr ⟨k, hk, h⟩))
  · unfold smart_route_folder
    simp [Option.getD, lowerStr_idem]

/-- Witness for C3 at content "our DEADLINES slipped". -/
theorem C3_substring_matching_witness :
    smart_route_folder (some "our DEADLINES slipped".data) none = "tasks".data :=
  (C3_substring_matching "our DEADLINES slipped".data none).1 (by decide)

/-- C4: the routing result depends on the tag list only through the set of its
lowercased elements, and the tag "read" fires the reads rule independently of
content: `route("", ["read"]) = "reads"`. -/
theorem C4_tags_as_set (text : Option (List Char)) (ts1 ts2 : List (List Char))
    (h : ∀ s, s ∈ ts1.map lowerStr ↔ s ∈ ts2.map lowerStr) :
    smart_route_folder text (some ts1) = smart_route_folder text (some ts2) ∧
      smart_route_folder (some "".data) (some ["read".data]) = "reads".data := by
  refine ⟨?_, by decide⟩
  unfold smart_route_folder routeCore matchesTasks matchesIdeas matchesNotes matchesReads
  simp only [Option.getD]
  rw [decide_eq_decide.mpr (h "task".data), decide_eq_decide.mpr (h "idea".data),
    decide_eq_decide.mpr (h "notes".data), decide_eq_decide.mpr (h "read".data)]

/-- Witness for C4: ["Read"] and ["READ", "read"] carry the same lowercased
tag set. -/
theorem C4_tags_as_set_witness :
    smart_route_folder (some "hello".data) (some ["Read".data]) =
      smart_route_folder (some "hello".data) (some ["READ".data, "read".data]) :=
  (C4_tags_as_set (some "hello".data) ["Read".data] ["READ".data, "read".data]
    (by
      intro s
      have h1 : (["Read".data] : List (List Char)).map lowerStr = ["read".data] := by decide
      have h2 : (["READ".data, "read".data] : List (List Char)).map lowerStr =
          ["read".data, "read".data] := by decide
      rw [h1, h2]
      simp)).1

-- Thought store embedding

/-- `Thought` document schema (src/schemas.py lines 26-38); timestamps are
abstract counters, `meta` holds string-to-string provenance entries. -/
structure Thought where
  title : Option (List Char) := none
  content : Option (List Char) := none
  modality : List Char
  source_url : Option (List Char) := none
  image_data_url : Option (List Char) := none
  tags : List (List Char) := []
  folder : Option (List Char) := none
  meta : List (List Char × List Char) := []
  pinned : Bool := false
  status : List Char := "active".data
  created_at : Option Nat := none
  updated_at : Option Nat := none
deriving DecidableEq

/-- `ThoughtCreate` ingest payload (src/main.py lines 23-29). -/
structure ThoughtCreate where
  title : Option (List Char) := none
  content : Option (List Char) := none
  modality : List Char
  source_url : Option (List Char) := none
  image_data_url : Option (List Char) := none
  tags : Option (List (List Char)) := none
deriving DecidableEq

/-- Modelled from the spec: a record as held by the abstract document
collection (the `database` module is not under src/) — the document together
with its store-internal ObjectId, modelled by a Nat counter. -/
structure StoredDoc where
  oid : Nat
  doc : Thought
deriving DecidableEq

/-- Modelled from the spec: state of the abstract document store; `error`
holds the exception message the store raises when it is unreachable or
rejects an operation. -/
structure DB where
  docs : List StoredDoc := []
  nextOid : Nat := 0
  error : Option (List Char) := none
deriving DecidableEq

/-- Modelled from the spec: the string form `str(ObjectId)` of a
store-internal identifier (hex digits). -/
def oidToString (n : Nat) : List Char :=
  Nat.toDigits 16 n

/-- The store state after appending a document under a fresh ObjectId. -/
def dbAfterInsert (db : DB) (doc : Thought) : DB :=
  { db with docs := db.docs ++ [⟨db.nextOid, doc⟩], nextOid := db.nextOid + 1 }

/-- Modelled from the spec: `insert(collection_name, document) ->
generated_id` — appends the document under a fresh ObjectId and returns the
identifier as a string, or raises the store's failure message. -/
def create_document (db : DB) (coll : List Char) (doc : Thought) :
    DB × Except (List Char) (List Char) :=
  match db.error with
  | some msg => (db, Except.error msg)
  | none => (dbAfterInsert db doc, Except.ok (oidToString db.nextOid))

/-- Modelled from the spec: `query(collection_name, filter, limit) ->
sequence of documents` — the documents whose `folder` equals the filter value
(all documents when the filter is empty), at most `limit` of them, in store
order; raises the store's failure message when the store is unreachable. -/
def get_documents (db : DB) (coll : List Char) (flt : Option (List Char)) (limit : Nat) :
    Except (List Char) (List StoredDoc) :=
  match db.error with
  | some msg => Except.error msg
  | none =>
    match flt with
    | none => Except.ok (db.docs.take limit)
    | some f => Except.ok ((db.docs.filter fun d => decide (d.doc.folder = some f)).take limit)

/-- `fastapi.HTTPException` as raised by the handlers: status code plus
detail message. -/
structure HTTPException where
  status_code : Nat
  detail : List Char
deriving DecidableEq

/-- The success payload of `/api/ingest`: `{"ok": True, "id": ..., "folder": ...}`. -/
structure IngestResult where
  ok : Bool
  id : List Char
  folder : List Char
deriving DecidableEq

/-- The allowed modalities checked at the ingestion boundary
(src/main.py line 90). -/
def allowedModalities : List (List Char) :=
  ["text".data, "image".data, "link".data, "voice".data]

/-- The `Thought` document built by `ingest_thought` (src/main.py
lines 94-103): payload fields, router-assigned folder, provenance meta. -/
def ingestDoc (payload : ThoughtCreate) : Thought :=
  { title := payload.title
    content := payload.content
    modality := payload.modality
    source_url := payload.source_url
    image_data_url := payload.image_data_url
    tags := payload.tags.getD []
    folder := some (smart_route_folder payload.content payload.tags)
    meta := [("routed_by".data, "heuristic-v0".data)] }

/-- `ingest_thought` from src/main.py lines 88-109: reject an unsupported
modality with HTTP 400 before any persistence, otherwise route, build the
document and insert it; a store exception becomes HTTP 500 carrying the
exception's message.  The store state is passed explicitly. -/
def ingest_thought (db : DB) (payload : ThoughtCreate) :
    DB × Except HTTPException IngestResult :=
  if payload.modality ∉ allowedModalities then
    (db, Except.error ⟨400, "Unsupported modality".data⟩)
  else
    match create_document db "thought".data (ingestDoc payload) with
    | (db2, Except.ok iid) =>
      (db2, Except.ok ⟨true, iid, smart_route_folder payload.content payload.tags⟩)
    | (db2, Except.error e) => (db2, Except.error ⟨500, e⟩)

/-- A record of the `/api/thoughts` response: the document with its
identifier materialized as the plain string field `id`
(src/main.py lines 118-120). -/
structure ItemWithId where
  id : List Char
  doc : Thought
deriving DecidableEq

/-- The success payload of `/api/thoughts`: `{"ok": True, "items": [...]}`. -/
structure ListResult where
  ok : Bool
  items : List ItemWithId
deriving DecidableEq

/-- `list_thoughts` from src/main.py lines 112-123: build the folder filter
only when the folder argument is truthy (present and non-empty), query the
store, convert every internal ObjectId to the string field `id`; a store
exception becomes HTTP 500 carrying the exception's message. -/
def list_thoughts (db : DB) (folder : Option (List Char)) (limit : Nat) :
    Except HTTPException ListResult :=
  let flt : Option (List Char) :=
    match folder with
    | some f => if f = [] then none else some f
    | none => none
  match get_documents db "thought".data flt limit with
  | Except.error e => Except.error ⟨500, e⟩
  | Except.ok ds => Except.ok ⟨true, ds.map fun d => ⟨oidToString d.oid, d.doc⟩⟩

-- Helper lemmas about the store

theorem toDigitsCore_length_le (b : Nat) (fuel : Nat) :
    ∀ (n : Nat) (ds : List Char), ds.length ≤ (Nat.toDigitsCore b fuel n ds).length := by
  induction fuel with
  | zero => intro n ds; simp [Nat.toDigitsCore]
  | succ fuel ih =>
    intro n ds
    unfold Nat.toDigitsCore
    dsimp only
    by_cases h : n / b = 0
    · simp [h]
    · rw [if_neg h]
      exact le_trans (by simp) (ih (n / b) ((n % b).digitChar :: ds))

theorem oidToString_ne_nil (n : Nat) : oidToString n ≠ [] := by
  unfold oidToString Nat.toDigits
  unfold Nat.toDigitsCore
  dsimp only
  by_cases h : n / 16 = 0
  · simp [h]
  · rw [if_neg h]
    intro hnil
    have := toDigitsCore_length_le 16 n (n / 16) ((n % 16).digitChar :: [])
    rw [hnil] at this
    simp at this

theorem ingest_thought_ok (db : DB) (payload : ThoughtCreate)
    (hmod : payload.modality ∈ allowedModalities) (hok : db.error = none) :
    ingest_thought db payload =
      (dbAfterInsert db (ingestDoc payload),
        Except.ok ⟨true, oidToString db.nextOid,
          smart_route_folder payload.content payload.tags⟩) := by
  unfold ingest_thought create_document
  simp [hmod, hok]

theorem list_thoughts_ok (db : DB) (f : List Char) (limit : Nat)
    (hf : f ≠ []) (hok : db.error = none) :
    list_thoughts db (some f) limit =
      Except.ok ⟨true,
        ((db.docs.filter fun d => decide (d.doc.folder = some f)).take limit).map
          fun d => ⟨oidToString d.oid, d.doc⟩⟩ := by
  unfold list_thoughts get_documents
  simp [hf, hok]

/-- `get_folders` registry entry (src/schemas.py lines 18-23 shape, values
from src/main.py lines 79-85). -/
structure FolderInfo where
  key : List Char
  name : List Char
  color : List Char
  icon : List Char
  priority : Nat
deriving DecidableEq

/-- `get_folders` from src/main.py lines 76-85: the fixed, hardcoded folder
registry returned by `/api/folders`. -/
def get_folders : List FolderInfo :=
  [⟨"inbox".data, "Inbox".data, "#94a3b8".data, "inbox".data, 0⟩,
   ⟨"ideas".data, "Ideas".data, "#22c55e".data, "sparkles".data, 3⟩,
   ⟨"tasks".data, "Tasks".data, "#3b82f6".data, "check-circle".data, 4⟩,
   ⟨"notes".data, "Notes".data, "#f59e0b".data, "notepad".data, 2⟩,
   ⟨"reads".data, "Reads".data, "#ec4899".data, "book-open".data, 1⟩]

-- C5 .. C10

/-- C5: a payload whose modality is outside {text, image, link, voice} makes
ingest fail with validation error 400 before any persistence attempt — the
store state is returned unchanged, so no routing result is persisted and no
partial write occurs. -/
theorem C5_validation_before_persistence (db : DB) (payload : ThoughtCreate)
    (h : payload.modality ∉ allowedModalities) :
    ingest_thought db payload =
      (db, Except.error ⟨400, "Unsupported modality".data⟩) := by
  unfold ingest_thought
  simp [h]

/-- Witness for C5 with modality "audio". -/
theorem C5_validation_before_persistence_witness :
    ingest_thought ⟨[], 0, none⟩ { modality := "audio".data } =
      (⟨[], 0, none⟩, Except.error ⟨400, "Unsupported modality".data⟩) :=
  C5_validation_before_persistence ⟨[], 0, none⟩ { modality := "audio".data } (by decide)

/-- C6: with a non-empty folder filter, a successful list returns only
documents whose folder equals the filter value, never more than `limit`
records, and a filter key stored in no document yields the empty sequence
rather than an error. -/
theorem C6_list_filter (db : DB) (f : List Char) (limit : Nat)
    (hf : f ≠ []) (hok : db.error = none) :
    ∃ items, list_thoughts db (some f) limit = Except.ok ⟨true, items⟩ ∧
      items.length ≤ limit ∧
      (∀ it ∈ items, it.doc.folder = some f) ∧
      ((∀ d ∈ db.docs, d.doc.folder ≠ some f) → items = []) := by
  refine ⟨_, list_thoughts_ok db f limit hf hok, ?_, ?_, ?_⟩
  · simp only [List.length_map, List.length_take]
    exact Nat.min_le_left _ _
  · intro it hit
    simp only [List.mem_map] at hit
    rcases hit with ⟨d, hd, rfl⟩
    have hd2 : d ∈ db.docs.filter fun d => decide (d.doc.folder = some f) :=
      List.take_subset _ _ hd
    exact of_decide_eq_true (List.mem_filter.mp hd2).2
  · intro hnone
    have hfil : (db.docs.filter fun d => decide (d.doc.folder = some f)) = [] := by
      rw [List.filter_eq_nil_iff]
      intro d hd
      simpa using hnone d hd
    simp [hfil]

/-- Witness for C6 on a store holding one tasks document, filtered by the key
"nonexistent-key". -/
theorem C6_list_filter_witness :
    ∃ items,
      list_thoughts ⟨[⟨0, ingestDoc { modality := "text".data, content := some "todo x".data }⟩],
          1, none⟩ (some "nonexistent-key".data) 50 = Except.ok ⟨true, items⟩ ∧
      items.length ≤ 50 ∧
      (∀ it ∈ items, it.doc.folder = some "nonexistent-key".data) ∧
      ((∀ d ∈ (⟨[⟨0, ingestDoc { modality := "text".data, content := some "todo x".data }⟩],
          1, none⟩ : DB).docs, d.doc.folder ≠ some "nonexistent-key".data) → items = []) :=
  C6_list_filter _ "nonexistent-key".data 50 (by decide) rfl

/-- C7: a successful ingest returns a non-empty string identifier; listing the
assigned folder afterwards (limit covering the store) yields a record whose
plain string field `id` equals that identifier, and every listed record's
`id` is the string conversion of a store-internal ObjectId — the internal
representation itself never crosses the boundary. -/
theorem C7_id_normalization (db : DB) (payload : ThoughtCreate)
    (hmod : payload.modality ∈ allowedModalities) (hok : db.error = none) :
    ∃ db2 iid folder,
      ingest_thought db payload = (db2, Except.ok ⟨true, iid, folder⟩) ∧
      iid ≠ [] ∧
      ∃ items, list_thoughts db2 (some folder) db2.docs.length = Except.ok ⟨true, items⟩ ∧
        (∃ it ∈ items, it.id = iid) ∧
        (∀ it ∈ items, ∃ d ∈ db2.docs, it.id = oidToString d.oid) := by
  refine ⟨dbAfterInsert db (ingestDoc payload), oidToString db.nextOid,
    smart_route_folder payload.content payload.tags,
    ingest_thought_ok db payload hmod hok, oidToString_ne_nil _, ?_⟩
  have hne : smart_route_folder payload.content payload.tags ≠ [] :=
    smart_route_folder_ne_nil _ _
  have herr2 : (dbAfterInsert db (ingestDoc payload)).error = none := by
    simp [dbAfterInsert, hok]
  refine ⟨_, list_thoughts_ok _ _ _ hne herr2, ?_, ?_⟩
  · have hmemdocs : (⟨db.nextOid, ingestDoc payload⟩ : StoredDoc) ∈
        (dbAfterInsert db (ingestDoc payload)).docs := by
      simp [dbAfterInsert]
    have hmemfilter : (⟨db.nextOid, ingestDoc payload⟩ : StoredDoc) ∈
        (dbAfterInsert db (ingestDoc payload)).docs.filter
          fun d => decide (d.doc.folder = some (smart_route_folder payload.content payload.tags)) :=
      List.mem_filter.mpr ⟨hmemdocs, by simp [ingestDoc]⟩
    rw [List.take_of_length_le (le_trans (List.length_filter_le _ _) le_rfl)]
    exact ⟨⟨oidToString db.nextOid, ingestDoc payload⟩,
      List.mem_map.mpr ⟨_, hmemfilter, rfl⟩, rfl⟩
  · intro it hit
    simp only [List.mem_map] at hit
    rcases hit with ⟨d, hd, rfl⟩
    have hd2 : d ∈ (dbAfterInsert db (ingestDoc payload)).docs.filter
        fun d => decide (d.doc.folder = some (smart_route_folder payload.content payload.tags)) :=
      List.take_subset _ _ hd
    exact ⟨d, List.mem_of_mem_filter hd2, rfl⟩

/-- Witness for C7: ingesting a "todo" text into an empty store. -/
theorem C7_id_normalization_witness :
    ∃ db2 iid folder,
      ingest_thought ⟨[], 0, none⟩ { modality := "text".data, content := some "todo x".data } =
        (db2, Except.ok ⟨true, iid, folder⟩) ∧
      iid ≠ [] ∧
      ∃ items, list_thoughts db2 (some folder) db2.docs.length = Except.ok ⟨true, items⟩ ∧
        (∃ it ∈ items, it.id = iid) ∧
        (∀ it ∈ items, ∃ d ∈ db2.docs, it.id = oidToString d.oid) :=
  C7_id_normalization ⟨[], 0, none⟩ { modality := "text".data, content := some "todo x".data }
    (by decide) rfl

/-- C8: when the underlying store raises, both ingest and list surface HTTP
500 errors whose detail is the store's message verbatim, with no retry, no
fallback and no state change. -/
theorem C8_errors_propagate (db : DB) (msg : List Char) (payload : ThoughtCreate)
    (folder : Option (List Char)) (limit : Nat)
    (herr : db.error = some msg) (hmod : payload.modality ∈ allowedModalities) :
    ingest_thought db payload = (db, Except.error ⟨500, msg⟩) ∧
      list_thoughts db folder limit = Except.error ⟨500, msg⟩ := by
  constructor
  · unfold ingest_thought create_document
    simp [hmod, herr]
  · unfold list_thoughts get_documents
    simp [herr]

/-- Witness for C8 with a store failing with message "boom". -/
theorem C8_errors_propagate_witness :
    ingest_thought ⟨[], 0, some "boom".data⟩ { modality := "text".data } =
      (⟨[], 0, some "boom".data⟩, Except.error ⟨500, "boom".data⟩) ∧
      list_thoughts ⟨[], 0, some "boom".data⟩ none 50 = Except.error ⟨500, "boom".data⟩ :=
  C8_errors_propagate ⟨[], 0, some "boom".data⟩ "boom".data { modality := "text".data }
    none 50 rfl (by decide)

/-- C9: the folders operation returns the fixed, hardcoded registry of exactly
five entries — keys inbox, reads, notes, ideas, tasks with names Inbox, Reads,
Notes, Ideas, Tasks and priorities 0, 1, 2, 3, 4 respectively — independent of
any stored data (the registry takes no store argument and is a constant). -/
theorem C9_fixed_registry :
    get_folders.length = 5 ∧
      List.Perm (get_folders.map fun f => (f.key, f.name, f.priority))
        [("inbox".data, "Inbox".data, 0), ("reads".data, "Reads".data, 1),
         ("notes".data, "Notes".data, 2), ("ideas".data, "Ideas".data, 3),
         ("tasks".data, "Tasks".data, 4)] ∧
      (∀ f ∈ get_folders, f.key ∈ folderKeys) := by
  refine ⟨rfl, by decide, by decide⟩

/-- C10: listing with a folder argument equal to the empty string behaves
exactly like listing with no folder filter at all, because the filter is
applied only when the folder value is truthy. -/
theorem C10_empty_folder_unfiltered (db : DB) (limit : Nat) :
    list_thoughts db (some []) limit = list_thoughts db none limit := by
  unfold list_thoughts
  simp
